import Mathlib

/-!
# gstat: sampling loop and delta computation

A shallow embedding of `cmd/gstat/gstat.go`.

* Standard output is modelled as the list of `fmt` calls made, each with its
  format string and its already evaluated operands.
* `float64` values are modelled by `FVal`: a finite value is an exact rational,
  and the three non-finite results of a division by zero are kept apart.
  Rounding of finite results to 53 bits is outside the display functions;
  `roundFloat64` gives the rounding of an integer conversion where a statement needs it.
* `uint64` counters are natural numbers below `2 ^ 64`; their subtraction wraps.
* A `time.Time` is a reading of the monotonic clock in nanoseconds and a
  `time.Duration` a signed 64-bit count of nanoseconds.
-/

namespace Gstat

/-! ## Numbers -/

/-- A `float64` value: exact when finite, otherwise one of the IEEE specials. -/
inductive FVal where
  | fin (q : ℚ)
  | pinf
  | ninf
  | nan
  deriving DecidableEq

/-- The conversion `float64(x)` of a finite number. -/
def float64 (q : ℚ) : FVal := FVal.fin q

/-- Floating-point division `a / b`; a zero divisor gives an infinity or NaN. -/
def FVal.div : FVal → FVal → FVal
  | .fin a, .fin b =>
    if b = 0 then (if a = 0 then .nan else if 0 < a then .pinf else .ninf)
    else .fin (a / b)
  | .fin _, .pinf => .fin 0
  | .fin _, .ninf => .fin 0
  | .pinf, .fin b => if 0 ≤ b then .pinf else .ninf
  | .ninf, .fin b => if 0 ≤ b then .ninf else .pinf
  | _, _ => .nan

/-- Floating-point multiplication `a * b`. -/
def FVal.mul : FVal → FVal → FVal
  | .fin a, .fin b => .fin (a * b)
  | .pinf, .fin b => if b = 0 then .nan else if 0 < b then .pinf else .ninf
  | .ninf, .fin b => if b = 0 then .nan else if 0 < b then .ninf else .pinf
  | .fin a, .pinf => if a = 0 then .nan else if 0 < a then .pinf else .ninf
  | .fin a, .ninf => if a = 0 then .nan else if 0 < a then .ninf else .pinf
  | .pinf, .pinf => .pinf
  | .ninf, .ninf => .pinf
  | .pinf, .ninf => .ninf
  | .ninf, .pinf => .ninf
  | _, _ => .nan

/-- The modulus of `uint64` arithmetic. -/
def u64 : ℕ := 2 ^ 64

/-- Subtraction of two `uint64` values, wrapping modulo `2 ^ 64`. -/
def u64sub (a b : ℕ) : ℕ := (a % u64 + (u64 - b % u64)) % u64

/-- Go's conversion `float64(n)` of an unsigned integer, as the integer it yields: `n`
rounded to 53 significant bits, to nearest and to even on a tie. It is the identity below
`2 ^ 53`. The display functions take conversions as exact; this definition says what the
conversion does to a wrapped delta, which is far above that bound. -/
def roundFloat64 (n : ℕ) : ℕ :=
  let e := Nat.log2 n - 52
  let q := n / 2 ^ e
  let r := n % 2 ^ e
  if 2 * r < 2 ^ e then q * 2 ^ e
  else if 2 ^ e < 2 * r then (q + 1) * 2 ^ e
  else if q % 2 = 0 then q * 2 ^ e
  else (q + 1) * 2 ^ e

/-! ## Time -/

/-- A `time.Duration`: nanoseconds as a signed 64-bit integer. -/
structure Duration where
  ns : ℤ
  deriving DecidableEq

/-- A `time.Time`, as a reading of the monotonic clock in nanoseconds. -/
structure Time where
  ns : ℤ
  deriving DecidableEq

def minDuration : ℤ := -(2 ^ 63)

def maxDuration : ℤ := 2 ^ 63 - 1

/-- `t.Sub(u)`: the difference `t - u`, saturated to the range of a `Duration`. -/
def Time.Sub (t u : Time) : Duration :=
  let d := t.ns - u.ns
  if d < minDuration then ⟨minDuration⟩
  else if maxDuration < d then ⟨maxDuration⟩
  else ⟨d⟩

/-- `d.Milliseconds()`: integer division by `1e6`, truncating toward zero. -/
def Duration.Milliseconds (d : Duration) : ℤ := Int.tdiv d.ns 1000000

/-! ## Output -/

/-- An evaluated operand of a `fmt.Printf` call. -/
inductive Arg where
  | str (s : String)
  | int (i : ℤ)
  | flt (x : FVal)
  | dur (d : Duration)
  deriving DecidableEq

/-- One call that writes to standard output. -/
inductive Call where
  | printf (format : String) (args : List Arg)
  | print (s : String)
  | println (s : String)
  deriving DecidableEq

/-- Everything written to standard output, in order. -/
abbrev Output := List Call

/-- The floating-point operands of a call. -/
def Call.floats : Call → List FVal
  | .printf _ args => args.filterMap fun a => match a with
    | .flt x => some x
    | _ => none
  | _ => []

/-- The floating-point operands of an output, in the order printed. -/
def floats (out : Output) : List FVal := out.flatMap Call.floats

/-! ## Data model -/

/-- The fields of `cpu.TimesStat` that are read (all `float64` in the library). -/
structure TimesStat where
  User : ℚ
  System : ℚ
  Idle : ℚ
  Nice : ℚ
  deriving DecidableEq

/-- The fields of `disk.IOCountersStat` that are read (all `uint64`). -/
structure IOCountersStat where
  ReadBytes : ℕ
  WriteBytes : ℕ
  IoTime : ℕ
  deriving DecidableEq

/-- The zero value of `disk.IOCountersStat`. -/
def IOCountersStat.zero : IOCountersStat := ⟨0, 0, 0⟩

/-- The fields of `mem.VirtualMemoryStat` that are read. -/
structure VirtualMemoryStat where
  Total : ℕ
  Available : ℕ
  Used : ℕ
  UsedPercent : ℚ
  Free : ℕ
  Buffers : ℕ
  Cached : ℕ
  Shared : ℕ
  deriving DecidableEq

/-- The fields of `mem.SwapMemoryStat` that are read. -/
structure SwapMemoryStat where
  Total : ℕ
  Used : ℕ
  Free : ℕ
  UsedPercent : ℚ
  deriving DecidableEq

/-- A `map[string]disk.IOCountersStat`, as an association list. -/
abbrev DiskMap := List (String × IOCountersStat)

/-- The map index expression `m[device]`: the zero value when the key is absent. -/
def DiskMap.index (m : DiskMap) (device : String) : IOCountersStat :=
  (m.lookup device).getD IOCountersStat.zero

/-- The snapshot `GoStat`; a `nil` pointer is `none`. -/
structure GoStat where
  ct : List TimesStat
  di : DiskMap
  mv : Option VirtualMemoryStat
  ms : Option SwapMemoryStat
  deriving DecidableEq

/-- The command-line flags and the device list, fixed after start-up. -/
structure Config where
  devices : List String
  duration : Duration
  poll : Duration
  showCpu : Bool
  showDisk : Bool
  showMem : Bool
  showSwap : Bool
  showTotal : Bool
  deriving DecidableEq

/-! ## The display functions -/

/-- The function `displayTime`. -/
def displayTime (start last : Time) : Output :=
  [ .printf "\"elapsed\": " [],
    .printf "%d" [.int (Int.tdiv (last.Sub start).Milliseconds 1000)] ]

/-- The local `idle` of `displayCpu`. -/
def idleDelta (pst st : TimesStat) : ℚ := st.Idle - pst.Idle

/-- The local `total` of `displayCpu`. -/
def totalDelta (pst st : TimesStat) : ℚ :=
  (st.User + st.Nice + st.System + st.Idle) - (pst.User + pst.Nice + pst.System + pst.Idle)

/-- The local `busy` of `displayCpu`. -/
def busyDelta (pst st : TimesStat) : ℚ := totalDelta pst st - idleDelta pst st

/-- The function `displayCpu`; `none` when indexing `[0]` of an empty slice panics. -/
def displayCpu (psta sta : List TimesStat) (_start _last : Time) : Option Output :=
  match psta.head?, sta.head? with
  | some pst, some st =>
    let total := totalDelta pst st
    let busy := busyDelta pst st
    some
      [ .printf "\"cpu\": " [],
        .printf "\x7b \"busy_percent\": %.2f, \"system\": %.3f, \"user\": %.3f, \"nice\": %.3f, \"idle\": %.3f \x7d"
          [ .flt (((float64 busy).div (float64 total)).mul (.fin 100)),
            .flt (((float64 (st.System - pst.System)).div (float64 total)).mul (.fin 100)),
            .flt (((float64 (st.User - pst.User)).div (float64 total)).mul (.fin 100)),
            .flt (((float64 (st.Nice - pst.Nice)).div (float64 total)).mul (.fin 100)),
            .flt (((float64 (st.Idle - pst.Idle)).div (float64 total)).mul (.fin 100)) ] ]
  | _, _ => none

/-- The CPU readings of the end-to-end scenario. -/
def scenarioCpuPrev : TimesStat := { User := 100, Nice := 0, System := 50, Idle := 850 }

def scenarioCpuCur : TimesStat := { User := 110, Nice := 0, System := 55, Idle := 855 }

/-- The function `displayN`; a missing key reads as the zero value, and nothing here can panic. -/
def displayN (psta sta : DiskMap) (start last : Time) (device : String) : Output :=
  let pst := psta.index device
  let st := sta.index device
  let iotime := u64sub st.IoTime pst.IoTime
  let total := (last.Sub start).Milliseconds
  [ .printf "\"%s\": " [.str device],
    .printf "\x7b \"util\": %.3f, \"read\": %.3f, \"write\": %.3f \x7d"
      [ .flt (((float64 iotime).div (float64 total)).mul (.fin 100)),
        .flt ((float64 (u64sub st.ReadBytes pst.ReadBytes)).div (.fin 1024)),
        .flt ((float64 (u64sub st.WriteBytes pst.WriteBytes)).div (.fin 1024)) ] ]

/-- The loop of `displayDisk` over the devices not yet printed. -/
def displayDiskLoop (psta sta : DiskMap) (start last : Time) : List String → Bool → Output
  | [], _ => []
  | device :: rest, first =>
    (if !first then [Call.printf ", " []] else []) ++
      displayN psta sta start last device ++
      displayDiskLoop psta sta start last rest false

/-- The function `displayDisk`, over the global device list. -/
def displayDisk (devices : List String) (psta sta : DiskMap) (start last : Time) : Output :=
  [Call.printf "\"disk\": \x7b " []] ++
    displayDiskLoop psta sta start last devices true ++
    [Call.printf " \x7d" []]

/-- The function `displayMem`; `none` when the pointer is `nil`. -/
def displayMem (st : Option VirtualMemoryStat) (_start _last : Time) : Option Output :=
  match st with
  | none => none
  | some st =>
    let unit : FVal := .fin 1024
    some
      [ .printf "\"memory\": " [],
        .printf "\x7b \"used_percent\": %.2f, \"total\": %.0f, \"used\": %.0f, \"free\": %.0f, \"shared\": %.0f, \"buffers\": %.0f, \"cached\": %.0f, \"available\": %.0f \x7d"
          [ .flt (float64 st.UsedPercent),
            .flt ((float64 st.Total).div unit),
            .flt ((float64 st.Used).div unit),
            .flt ((float64 st.Free).div unit),
            .flt ((float64 st.Shared).div unit),
            .flt ((float64 st.Buffers).div unit),
            .flt ((float64 st.Cached).div unit),
            .flt ((float64 st.Available).div unit) ] ]

/-- The function `displaySwap`; `none` when the pointer is `nil`. -/
def displaySwap (st : Option SwapMemoryStat) (_start _last : Time) : Option Output :=
  match st with
  | none => none
  | some st =>
    let unit : FVal := .fin 1024
    some
      [ .printf "\"swap\": " [],
        .printf "\x7b \"used_percent\": %.2f, \"total\": %.0f, \"used\": %.0f, \"free\": %.0f \x7d"
          [ .flt (float64 st.UsedPercent),
            .flt ((float64 st.Total).div unit),
            .flt ((float64 st.Used).div unit),
            .flt ((float64 st.Free).div unit) ] ]

/-- A section of `display` behind its flag: the separator, then the section. -/
def flagged (enabled : Bool) (body : Option Output) : Option Output :=
  if enabled then body.map fun out => Call.print ", " :: out else some []

/-- The function `display`; `none` when one of the enabled sections panics. -/
def display (cfg : Config) (pst st : GoStat) (start last : Time) : Option Output := do
  let cpu ← flagged cfg.showCpu (displayCpu pst.ct st.ct start last)
  let dsk ← flagged cfg.showDisk (some (displayDisk cfg.devices pst.di st.di start last))
  let mem ← flagged cfg.showMem (displayMem st.mv start last)
  let swp ← flagged cfg.showSwap (displaySwap st.ms start last)
  pure ([Call.print "\x7b "] ++ displayTime start last ++ cpu ++ dsk ++ mem ++ swp ++
    [Call.println " \x7d"])

/-- The function `total`. -/
def total (cfg : Config) (pst st : GoStat) (start last : Time) : Option Output :=
  if cfg.showTotal then
    (display cfg pst st start last).map fun out =>
      Call.printf "\n\n// measured average over %s\n" [.dur (last.Sub start)] :: out
  else some []

/-! ## The sampling loop of `main` -/

/-- Where control stands in `main` after the first snapshot has been taken. -/
inductive PC where
  /-- At the top of the `for` loop, before the test of the duration. -/
  | loopHead
  /-- In `time.Sleep`, before the four provider calls. -/
  | sleeping
  /-- The snapshot `st` has been built; `lastSample` is not assigned yet. -/
  | sampled (st : GoStat)
  /-- The assignment `lastSample = time.Now()` is done; `display` is not called yet. -/
  | stamped (st : GoStat)
  /-- The call of `display` has returned; `pst = st` is not done yet. -/
  | displayed (st : GoStat)
  /-- After `os.Exit(0)`. -/
  | exited
  /-- After a panic. -/
  | panicked
  deriving DecidableEq

/-- The variables of `main` that the loop and the signal handler share, with two
history lists that record what has been sampled (they are never read by the program). -/
structure MainState where
  sst : GoStat
  pst : GoStat
  start : Time
  lastSample : Time
  pc : PC
  /-- History: every snapshot taken so far, the most recent first. -/
  taken : List GoStat
  /-- History: the clock reading that goes with each snapshot, the most recent first. -/
  stamps : List Time
  deriving DecidableEq

/-- What the surroundings supply to one step of `main`. -/
structure Env where
  /-- A termination signal is delivered before the next statement runs. -/
  signal : Bool
  /-- The reading of the clock, should the statement call `time.Now` or `time.Since`. -/
  now : Time
  /-- The outcome of the four provider calls: `none` when one of them returns an error. -/
  sample : Option GoStat
  deriving DecidableEq

/-- The state of `main` right after `pst := sst`. -/
def MainState.init (sst : GoStat) (start : Time) : MainState :=
  { sst := sst, pst := sst, start := start, lastSample := start, pc := .loopHead,
    taken := [sst], stamps := [start] }

/-- The call `total(sst, pst, start, lastSample)` followed by `os.Exit(0)`. -/
def exitWithTotal (cfg : Config) (s : MainState) : MainState × Output :=
  match total cfg s.sst s.pst s.start s.lastSample with
  | some out => ({ s with pc := .exited }, out)
  | none => ({ s with pc := .panicked }, [])

/-- One statement of the sampling loop, or the signal handler when a signal is delivered.
The handler reads the shared variables as they are at that moment. -/
def step (cfg : Config) (s : MainState) (e : Env) : MainState × Output :=
  match s.pc with
  | .exited => (s, [])
  | .panicked => (s, [])
  | .loopHead =>
    if e.signal then exitWithTotal cfg s
    else if cfg.duration.ns < (e.now.Sub s.start).ns then exitWithTotal cfg s
    else ({ s with pc := .sleeping }, [])
  | .sleeping =>
    if e.signal then exitWithTotal cfg s
    else match e.sample with
      | none => ({ s with pc := .panicked }, [])
      | some st => ({ s with pc := .sampled st, taken := st :: s.taken }, [])
  | .sampled st =>
    if e.signal then exitWithTotal cfg s
    else ({ s with lastSample := e.now, pc := .stamped st, stamps := e.now :: s.stamps }, [])
  | .stamped st =>
    if e.signal then exitWithTotal cfg s
    else match display cfg s.pst st s.start s.lastSample with
      | some out => ({ s with pc := .displayed st }, out)
      | none => ({ s with pc := .panicked }, [])
  | .displayed st =>
    if e.signal then exitWithTotal cfg s
    else ({ s with pst := st, pc := .loopHead }, [])

/-- The state reached and the output written after the given steps. -/
def run (cfg : Config) (s : MainState) : List Env → MainState × Output
  | [] => (s, [])
  | e :: es =>
    let r := step cfg s e
    let r2 := run cfg r.1 es
    (r2.1, r.2 ++ r2.2)

/-! ## Reading an output back -/

/-- The device a call names, recognised by the key format of `displayN`. -/
def Call.device : Call → Option String
  | .printf format [.str d] => if format = "\"%s\": " then some d else none
  | _ => none

/-- The map with an all-zero record put in for `device` when it has none. -/
def DiskMap.fill (m : DiskMap) (device : String) : DiskMap :=
  match m.lookup device with
  | some _ => m
  | none => (device, IOCountersStat.zero) :: m

/-- What the histories say about the shared variables at each point of the loop. -/
def Inv (sst : GoStat) (start : Time) (s : MainState) : Prop :=
  s.sst = sst ∧ s.start = start ∧
  match s.pc with
  | .loopHead => s.taken.head? = some s.pst ∧ s.stamps.head? = some s.lastSample
  | .sleeping => s.taken.head? = some s.pst ∧ s.stamps.head? = some s.lastSample
  | .sampled st => s.taken.head? = some st
  | .stamped st => s.taken.head? = some st ∧ s.stamps.head? = some s.lastSample
  | .displayed st => s.taken.head? = some st ∧ s.stamps.head? = some s.lastSample
  | .exited => True
  | .panicked => True

/-! ## Concrete runs -/

/-- A step without a signal. -/
def quiet (now : Time) (sample : Option GoStat) : Env :=
  { signal := false, now := now, sample := sample }

/-- A step at which a termination signal is delivered. -/
def interrupt (now : Time) : Env :=
  { signal := true, now := now, sample := none }

/-- A snapshot that holds one disk, `sda`, with the given `IoTime`. -/
def diskSnap (ioTime : ℕ) : GoStat :=
  { ct := [], di := [("sda", ⟨0, 0, ioTime⟩)], mv := none, ms := none }

/-- Flags that enable the disk section alone, for the device `sda`. -/
def diskOnly : Config :=
  { devices := ["sda"], duration := ⟨10000000000⟩, poll := ⟨1000000000⟩,
    showCpu := false, showDisk := true, showMem := false, showSwap := false,
    showTotal := false }

/-- Two polls of one second: `IoTime` is 0 at the start, 500 after the first second and
1000 after the second; the run stops right before the second record is printed. -/
def twoPolls : List Env :=
  [ quiet ⟨0⟩ none, quiet ⟨0⟩ (some (diskSnap 500)), quiet ⟨1000000000⟩ none,
    quiet ⟨1000000000⟩ none, quiet ⟨1000000000⟩ none,
    quiet ⟨1000000000⟩ none, quiet ⟨1000000000⟩ (some (diskSnap 1000)),
    quiet ⟨2000000000⟩ none ]

/-- A snapshot that holds memory figures alone. -/
def memSnap (used : ℕ) : GoStat :=
  { ct := [], di := [],
    mv := some { Total := 8192, Available := 0, Used := used, UsedPercent := 0, Free := 0,
                 Buffers := 0, Cached := 0, Shared := 0 },
    ms := none }

/-- Flags that enable the memory section alone, and the final record. -/
def memWithTotal : Config :=
  { devices := [], duration := ⟨10000000000⟩, poll := ⟨1000000000⟩,
    showCpu := false, showDisk := false, showMem := true, showSwap := false,
    showTotal := true }

/-- One poll, up to the assignment of `lastSample` and not further. -/
def onePollStamped : List Env :=
  [ quiet ⟨0⟩ none, quiet ⟨0⟩ (some (memSnap 2048)), quiet ⟨1000000000⟩ none ]

/-- One whole poll: the snapshot is taken, stamped, displayed and kept as `pst`. -/
def onePoll : List Env :=
  onePollStamped ++ [quiet ⟨1000000000⟩ none, quiet ⟨1000000000⟩ none]

/-- The state of the two-poll run right before its second record is printed. -/
def secondTick : MainState := (run diskOnly (MainState.init (diskSnap 0) ⟨0⟩) twoPolls).1

/-- The state in which a new snapshot is stamped while `pst` still holds the old one. -/
def raceState : MainState :=
  (run memWithTotal (MainState.init (memSnap 1024) ⟨0⟩) onePollStamped).1

/-! ## Theorems -/

set_option maxRecDepth 100000

theorem div_fin_of_ne (a b : ℚ) (h : b ≠ 0) :
    (float64 a).div (float64 b) = .fin (a / b) := by
  simp [float64, FVal.div, h]

theorem pct_fin_of_ne (a b : ℚ) (h : b ≠ 0) :
    ((float64 a).div (float64 b)).mul (.fin 100) = .fin (a / b * 100) := by
  simp [float64, FVal.div, FVal.mul, h]

/-- The five values `displayCpu` prints when the total delta is not zero. -/
theorem displayCpu_floats (pst st : TimesStat) (ps ss : List TimesStat) (start last : Time)
    (h : totalDelta pst st ≠ 0) :
    (displayCpu (pst :: ps) (st :: ss) start last).map floats =
      some [ .fin (busyDelta pst st / totalDelta pst st * 100),
             .fin ((st.System - pst.System) / totalDelta pst st * 100),
             .fin ((st.User - pst.User) / totalDelta pst st * 100),
             .fin ((st.Nice - pst.Nice) / totalDelta pst st * 100),
             .fin ((st.Idle - pst.Idle) / totalDelta pst st * 100) ] := by
  simp [displayCpu, floats, Call.floats, pct_fin_of_ne _ _ h]

/-- C1, as stated, fails: on the scenario readings the total delta is not 70, and no
pair of printed busy and idle values lies within 0.01 of 92.86 and 7.14. -/
theorem scenario_cpu_as_stated_fails :
    ¬ (totalDelta scenarioCpuPrev scenarioCpuCur = 70 ∧
        idleDelta scenarioCpuPrev scenarioCpuCur = 5 ∧
        ∃ b s u n i : ℚ,
          (displayCpu [scenarioCpuPrev] [scenarioCpuCur] ⟨0⟩ ⟨0⟩).map floats =
            some [.fin b, .fin s, .fin u, .fin n, .fin i] ∧
          |b - 92.86| < 0.01 ∧ |i - 7.14| < 0.01) := by
  rintro ⟨h, -⟩
  norm_num [totalDelta, scenarioCpuPrev, scenarioCpuCur] at h

/-- C1, amended: on the scenario readings `displayCpu` computes a total delta of 20 and
an idle delta of 5, and prints busy 75, system 25, user 50, nice 0 and idle 25. -/
theorem scenario_cpu_values (start last : Time) :
    totalDelta scenarioCpuPrev scenarioCpuCur = 20 ∧
      idleDelta scenarioCpuPrev scenarioCpuCur = 5 ∧
      busyDelta scenarioCpuPrev scenarioCpuCur = 15 ∧
      (displayCpu [scenarioCpuPrev] [scenarioCpuCur] start last).map floats =
        some [.fin 75, .fin 25, .fin 50, .fin 0, .fin 25] := by
  have ht : totalDelta scenarioCpuPrev scenarioCpuCur = 20 := by
    norm_num [totalDelta, scenarioCpuPrev, scenarioCpuCur]
  have hi : idleDelta scenarioCpuPrev scenarioCpuCur = 5 := by
    norm_num [idleDelta, scenarioCpuPrev, scenarioCpuCur]
  have hb : busyDelta scenarioCpuPrev scenarioCpuCur = 15 := by
    rw [busyDelta, ht, hi]; norm_num
  refine ⟨ht, hi, hb, ?_⟩
  rw [displayCpu_floats _ _ _ _ _ _ (by rw [ht]; norm_num), hb, ht]
  norm_num [scenarioCpuPrev, scenarioCpuCur]

/-- C3: when the total delta is not zero, the system, user, nice and idle values that
`displayCpu` prints are the four deltas over the total delta times 100, and they sum
to exactly 100. -/
theorem cpu_states_sum_to_100 (pst st : TimesStat) (ps ss : List TimesStat)
    (start last : Time) (h : totalDelta pst st ≠ 0) :
    ∃ b s u n i : ℚ,
      (displayCpu (pst :: ps) (st :: ss) start last).map floats =
        some [.fin b, .fin s, .fin u, .fin n, .fin i] ∧
      s = (st.System - pst.System) / totalDelta pst st * 100 ∧
      u = (st.User - pst.User) / totalDelta pst st * 100 ∧
      n = (st.Nice - pst.Nice) / totalDelta pst st * 100 ∧
      i = (st.Idle - pst.Idle) / totalDelta pst st * 100 ∧
      s + u + n + i = 100 := by
  refine ⟨_, _, _, _, _, displayCpu_floats pst st ps ss start last h, rfl, rfl, rfl, rfl, ?_⟩
  have e : (st.System - pst.System) + (st.User - pst.User) + (st.Nice - pst.Nice) +
      (st.Idle - pst.Idle) = totalDelta pst st := by
    simp only [totalDelta]; ring
  rw [← add_mul, ← add_mul, ← add_mul, ← add_div, ← add_div, ← add_div, e, div_self h]
  norm_num

theorem cpu_states_sum_to_100_witness :
    totalDelta scenarioCpuPrev scenarioCpuCur ≠ 0 ∧
      ∃ b s u n i : ℚ,
        (displayCpu [scenarioCpuPrev] [scenarioCpuCur] ⟨0⟩ ⟨1000000000⟩).map floats =
          some [.fin b, .fin s, .fin u, .fin n, .fin i] ∧
        s = (scenarioCpuCur.System - scenarioCpuPrev.System) /
          totalDelta scenarioCpuPrev scenarioCpuCur * 100 ∧
        u = (scenarioCpuCur.User - scenarioCpuPrev.User) /
          totalDelta scenarioCpuPrev scenarioCpuCur * 100 ∧
        n = (scenarioCpuCur.Nice - scenarioCpuPrev.Nice) /
          totalDelta scenarioCpuPrev scenarioCpuCur * 100 ∧
        i = (scenarioCpuCur.Idle - scenarioCpuPrev.Idle) /
          totalDelta scenarioCpuPrev scenarioCpuCur * 100 ∧
        s + u + n + i = 100 :=
  ⟨by norm_num [totalDelta, scenarioCpuPrev, scenarioCpuCur],
   cpu_states_sum_to_100 scenarioCpuPrev scenarioCpuCur [] [] ⟨0⟩ ⟨1000000000⟩
     (by norm_num [totalDelta, scenarioCpuPrev, scenarioCpuCur])⟩

/-- C4: when the total delta is not zero, the busy percentage that `displayCpu` prints
is `busy / total * 100` with `busy = total - idle`, and it equals 100 minus the idle
percentage printed. -/
theorem cpu_busy_is_100_minus_idle (pst st : TimesStat) (ps ss : List TimesStat)
    (start last : Time) (h : totalDelta pst st ≠ 0) :
    ∃ b s u n i : ℚ,
      (displayCpu (pst :: ps) (st :: ss) start last).map floats =
        some [.fin b, .fin s, .fin u, .fin n, .fin i] ∧
      b = (totalDelta pst st - idleDelta pst st) / totalDelta pst st * 100 ∧
      i = idleDelta pst st / totalDelta pst st * 100 ∧
      b = 100 - i := by
  refine ⟨_, _, _, _, _, displayCpu_floats pst st ps ss start last h, rfl, rfl, ?_⟩
  simp only [busyDelta, idleDelta]
  field_simp
  ring

theorem cpu_busy_is_100_minus_idle_witness :
    totalDelta scenarioCpuPrev scenarioCpuCur ≠ 0 ∧
      ∃ b s u n i : ℚ,
        (displayCpu [scenarioCpuPrev] [scenarioCpuCur] ⟨0⟩ ⟨1000000000⟩).map floats =
          some [.fin b, .fin s, .fin u, .fin n, .fin i] ∧
        b = (totalDelta scenarioCpuPrev scenarioCpuCur -
            idleDelta scenarioCpuPrev scenarioCpuCur) /
          totalDelta scenarioCpuPrev scenarioCpuCur * 100 ∧
        i = idleDelta scenarioCpuPrev scenarioCpuCur /
          totalDelta scenarioCpuPrev scenarioCpuCur * 100 ∧
        b = 100 - i :=
  ⟨by norm_num [totalDelta, scenarioCpuPrev, scenarioCpuCur],
   cpu_busy_is_100_minus_idle scenarioCpuPrev scenarioCpuCur [] [] ⟨0⟩ ⟨1000000000⟩
     (by norm_num [totalDelta, scenarioCpuPrev, scenarioCpuCur])⟩

/-! ### Disk -/

theorem u64sub_of_le {a b : ℕ} (hba : b ≤ a) (ha : a < u64) : u64sub a b = a - b := by
  have hb : b < u64 := lt_of_le_of_lt hba ha
  unfold u64sub
  rw [Nat.mod_eq_of_lt ha, Nat.mod_eq_of_lt hb]
  have e : a + (u64 - b) = (a - b) + u64 := by omega
  rw [e, Nat.add_mod_right, Nat.mod_eq_of_lt (by omega)]

theorem Sub_nonneg {start last : Time} (h : start.ns ≤ last.ns) : 0 ≤ (last.Sub start).ns := by
  unfold Time.Sub
  simp only
  split_ifs with h1 h2
  · norm_num [minDuration] at h1; omega
  · norm_num [maxDuration]
  · show 0 ≤ last.ns - start.ns
    omega

theorem Sub_of_fits {start last : Time} (h : start.ns ≤ last.ns)
    (hfit : last.ns - start.ns ≤ maxDuration) : (last.Sub start).ns = last.ns - start.ns := by
  unfold Time.Sub
  simp only
  split_ifs with h1 h2
  · norm_num [minDuration] at h1; omega
  · omega
  · rfl

theorem Milliseconds_nonneg {start last : Time} (h : start.ns ≤ last.ns) :
    0 ≤ (last.Sub start).Milliseconds :=
  Int.tdiv_nonneg (Sub_nonneg h) (by norm_num)

/-- The three values `displayN` prints, whatever the maps hold. -/
theorem displayN_floats (psta sta : DiskMap) (start last : Time) (device : String) :
    floats (displayN psta sta start last device) =
      [ ((float64 (u64sub (sta.index device).IoTime (psta.index device).IoTime)).div
          (float64 (last.Sub start).Milliseconds)).mul (.fin 100),
        .fin ((u64sub (sta.index device).ReadBytes (psta.index device).ReadBytes : ℕ) / 1024),
        .fin ((u64sub (sta.index device).WriteBytes (psta.index device).WriteBytes : ℕ) / 1024) ] := by
  simp [displayN, floats, Call.floats, float64, FVal.div]

theorem index_of_lookup {m : DiskMap} {device : String} {x : IOCountersStat}
    (h : m.lookup device = some x) : m.index device = x := by
  simp [DiskMap.index, h]

theorem index_of_absent {m : DiskMap} {device : String}
    (h : m.lookup device = none) : m.index device = IOCountersStat.zero := by
  simp [DiskMap.index, h]

theorem index_fill (m : DiskMap) (device : String) :
    (m.fill device).index device = m.index device := by
  unfold DiskMap.fill
  cases h : m.lookup device with
  | some x => rfl
  | none => simp [DiskMap.index, h, List.lookup]

/-- C5: for a device present in both maps whose counters did not go down, over a span
of `elapsedMillis ≠ 0` milliseconds, `displayN` prints
`util = (cur.IoTime - prev.IoTime) / elapsedMillis * 100`,
`read = (cur.ReadBytes - prev.ReadBytes) / 1024` and
`write = (cur.WriteBytes - prev.WriteBytes) / 1024`, the last two not divided by the
time; `util` is 0 when the `IoTime` delta is 0. -/
theorem displayN_values (psta sta : DiskMap) (start last : Time) (device : String)
    (p c : IOCountersStat)
    (hp : psta.lookup device = some p) (hc : sta.lookup device = some c)
    (hio : p.IoTime ≤ c.IoTime) (hr : p.ReadBytes ≤ c.ReadBytes)
    (hw : p.WriteBytes ≤ c.WriteBytes)
    (hbio : c.IoTime < u64) (hbr : c.ReadBytes < u64) (hbw : c.WriteBytes < u64)
    (hms : (last.Sub start).Milliseconds ≠ 0) :
    floats (displayN psta sta start last device) =
        [ .fin (((c.IoTime : ℚ) - p.IoTime) / ((last.Sub start).Milliseconds : ℚ) * 100),
          .fin (((c.ReadBytes : ℚ) - p.ReadBytes) / 1024),
          .fin (((c.WriteBytes : ℚ) - p.WriteBytes) / 1024) ] ∧
      (c.IoTime = p.IoTime →
        (floats (displayN psta sta start last device)).head? = some (.fin 0)) := by
  have hq : ((last.Sub start).Milliseconds : ℚ) ≠ 0 := by exact_mod_cast hms
  have main : floats (displayN psta sta start last device) =
      [ .fin (((c.IoTime : ℚ) - p.IoTime) / ((last.Sub start).Milliseconds : ℚ) * 100),
        .fin (((c.ReadBytes : ℚ) - p.ReadBytes) / 1024),
        .fin (((c.WriteBytes : ℚ) - p.WriteBytes) / 1024) ] := by
    rw [displayN_floats, index_of_lookup hp, index_of_lookup hc, u64sub_of_le hio hbio,
      u64sub_of_le hr hbr, u64sub_of_le hw hbw, pct_fin_of_ne _ _ hq,
      Nat.cast_sub hio, Nat.cast_sub hr, Nat.cast_sub hw]
  refine ⟨main, fun h0 => ?_⟩
  rw [main, h0]
  simp

theorem displayN_values_witness :
    ([("sda", (⟨0, 0, 1000⟩ : IOCountersStat))] : DiskMap).lookup "sda" = some ⟨0, 0, 1000⟩ ∧
      ([("sda", (⟨102400, 0, 1500⟩ : IOCountersStat))] : DiskMap).lookup "sda" =
        some ⟨102400, 0, 1500⟩ ∧
      (⟨1000000000⟩ : Time).Sub ⟨0⟩ = ⟨1000000000⟩ ∧
      ((⟨1000000000⟩ : Time).Sub ⟨0⟩).Milliseconds = 1000 ∧
      floats (displayN [("sda", ⟨0, 0, 1000⟩)] [("sda", ⟨102400, 0, 1500⟩)]
        ⟨0⟩ ⟨1000000000⟩ "sda") = [.fin 50, .fin 100, .fin 0] := by
  have hms : ((⟨1000000000⟩ : Time).Sub ⟨0⟩).Milliseconds = 1000 := by decide
  refine ⟨by decide, by decide, by decide, hms, ?_⟩
  have h := (displayN_values [("sda", ⟨0, 0, 1000⟩)] [("sda", ⟨102400, 0, 1500⟩)]
    ⟨0⟩ ⟨1000000000⟩ "sda" ⟨0, 0, 1000⟩ ⟨102400, 0, 1500⟩ (by decide) (by decide)
    (by decide) (by decide) (by decide) (by norm_num [u64]) (by norm_num [u64])
    (by norm_num [u64]) (by rw [hms]; decide)).1
  rw [h, hms]
  norm_num

theorem fill_has_key (m : DiskMap) (device : String) :
    (m.fill device).lookup device ≠ none := by
  unfold DiskMap.fill
  cases h : m.lookup device with
  | some x => simp [h]
  | none => simp [List.lookup]

/-- C7: `displayN` is a total function of its maps, so a key missing from either map
cannot make it fail; its output is the one obtained after an all-zero record is put in
for each absent entry; and a device absent from both maps, over a non-zero span, is
printed with util 0, read 0 and write 0. -/
theorem displayN_absent_is_zero (psta sta : DiskMap) (start last : Time) (device : String) :
    displayN psta sta start last device =
        displayN (psta.fill device) (sta.fill device) start last device ∧
      (psta.fill device).lookup device ≠ none ∧
      (sta.fill device).lookup device ≠ none ∧
      (psta.lookup device = none → (psta.fill device).lookup device = some IOCountersStat.zero) ∧
      (sta.lookup device = none → (sta.fill device).lookup device = some IOCountersStat.zero) ∧
      (psta.lookup device = none → sta.lookup device = none →
        (last.Sub start).Milliseconds ≠ 0 →
        floats (displayN psta sta start last device) = [.fin 0, .fin 0, .fin 0]) := by
  refine ⟨?_, fill_has_key psta device, fill_has_key sta device, ?_, ?_, ?_⟩
  · simp only [displayN, index_fill]
  · intro h; simp [DiskMap.fill, h, List.lookup]
  · intro h; simp [DiskMap.fill, h, List.lookup]
  · intro hp hc hms
    have hq : ((last.Sub start).Milliseconds : ℚ) ≠ 0 := by exact_mod_cast hms
    rw [displayN_floats, index_of_absent hp, index_of_absent hc]
    simp [IOCountersStat.zero, u64sub, u64, float64, FVal.div, FVal.mul, hq]

theorem displayN_absent_is_zero_witness :
    ([] : DiskMap).lookup "sdb" = none ∧
      ([("sda", (⟨0, 0, 1000⟩ : IOCountersStat))] : DiskMap).lookup "sdb" = none ∧
      ((⟨1000000000⟩ : Time).Sub ⟨0⟩).Milliseconds ≠ 0 ∧
      floats (displayN [] [("sda", ⟨0, 0, 1000⟩)] ⟨0⟩ ⟨1000000000⟩ "sdb") =
        [.fin 0, .fin 0, .fin 0] :=
  ⟨by decide, by decide, by decide,
   (displayN_absent_is_zero [] [("sda", ⟨0, 0, 1000⟩)] ⟨0⟩ ⟨1000000000⟩ "sdb").2.2.2.2.2
     (by decide) (by decide) (by decide)⟩

theorem roundFloat64_exact (n : ℕ) (h : n < 2 ^ 53) : roundFloat64 n = n := by
  have he : Nat.log2 n - 52 = 0 := by
    rcases Nat.eq_zero_or_pos n with h0 | hpos
    · subst h0; simp [Nat.log2]
    · have := (Nat.log2_lt (Nat.pos_iff_ne_zero.mp hpos)).2 h
      omega
  simp [roundFloat64, he, Nat.mod_one]

/-- C6: when the sample time is not before the start time, `displayTime` prints
`floor(ms / 1000)` with `ms = last.Sub(start).Milliseconds()`; `ms` is not negative,
and when the span fits a `Duration` it is the whole number of milliseconds in
`last - start`, so that the printed value is the span truncated to whole seconds. -/
theorem displayTime_floor (start last : Time) (h : start.ns ≤ last.ns) :
    displayTime start last =
        [ .printf "\"elapsed\": " [],
          .printf "%d" [.int ⌊(((last.Sub start).Milliseconds : ℤ) : ℚ) / 1000⌋] ] ∧
      0 ≤ (last.Sub start).Milliseconds ∧
      (last.ns - start.ns ≤ maxDuration →
        (last.Sub start).Milliseconds = ⌊((last.ns - start.ns : ℤ) : ℚ) / 1000000⌋ ∧
        ⌊(((last.Sub start).Milliseconds : ℤ) : ℚ) / 1000⌋ =
          ⌊((last.ns - start.ns : ℤ) : ℚ) / 1000000000⌋ ∧
        ⌊(((last.Sub start).Milliseconds : ℤ) : ℚ) / 1000⌋ =
          Int.tdiv (last.ns - start.ns) 1000000000) := by
  have hms := Milliseconds_nonneg h
  have fl : ∀ (a : ℤ) (d : ℕ), ⌊(a : ℚ) / (d : ℚ)⌋ = a / (d : ℤ) :=
    fun a d => Rat.floor_intCast_div_natCast a d
  have f3 : ∀ a : ℤ, ⌊(a : ℚ) / 1000⌋ = a / 1000 := fun a => by
    have := fl a 1000; simpa using this
  have f6 : ∀ a : ℤ, ⌊(a : ℚ) / 1000000⌋ = a / 1000000 := fun a => by
    have := fl a 1000000; simpa using this
  have f9 : ∀ a : ℤ, ⌊(a : ℚ) / 1000000000⌋ = a / 1000000000 := fun a => by
    have := fl a 1000000000; simpa using this
  refine ⟨?_, hms, fun hfit => ?_⟩
  · rw [f3, displayTime, Int.tdiv_eq_ediv hms (by norm_num)]
  · have hd : 0 ≤ last.ns - start.ns := by omega
    have e : (last.Sub start).Milliseconds = (last.ns - start.ns) / 1000000 := by
      rw [Duration.Milliseconds, Sub_of_fits h hfit, Int.tdiv_eq_ediv hd (by norm_num)]
    have e9 : (last.ns - start.ns) / 1000000 / 1000 = (last.ns - start.ns) / 1000000000 := by
      omega
    refine ⟨by rw [f6, e], by rw [f3, f9, e, e9], ?_⟩
    rw [f3, e, e9, Int.tdiv_eq_ediv hd (by norm_num)]

theorem displayTime_floor_witness :
    (⟨500000000⟩ : Time).ns ≤ (⟨4250000000⟩ : Time).ns ∧
      displayTime ⟨500000000⟩ ⟨4250000000⟩ =
        [ .printf "\"elapsed\": " [], .printf "%d" [.int 3] ] := by
  have h := (displayTime_floor ⟨500000000⟩ ⟨4250000000⟩ (by decide)).1
  have hms : ((⟨4250000000⟩ : Time).Sub ⟨500000000⟩).Milliseconds = 3750 := by decide
  refine ⟨by decide, ?_⟩
  rw [h, hms]
  norm_num

/-! ### Composition of a record -/

theorem exitWithTotal_inv (cfg : Config) (sst : GoStat) (start : Time) (s : MainState)
    (h : Inv sst start s) : Inv sst start (exitWithTotal cfg s).1 := by
  obtain ⟨h1, h2, -⟩ := h
  unfold exitWithTotal
  split <;> exact ⟨h1, h2, trivial⟩

theorem step_inv (cfg : Config) (sst : GoStat) (start : Time) (s : MainState) (e : Env)
    (h : Inv sst start s) : Inv sst start (step cfg s e).1 := by
  have hx := exitWithTotal_inv cfg sst start s h
  obtain ⟨s0, p, t0, l, pc, tk, sp⟩ := s
  obtain ⟨h1, h2, h3⟩ := h
  cases pc with
  | exited => exact ⟨h1, h2, trivial⟩
  | panicked => exact ⟨h1, h2, trivial⟩
  | loopHead =>
    simp only [step]
    split_ifs
    · exact hx
    · exact hx
    · exact ⟨h1, h2, h3⟩
  | sleeping =>
    simp only [step]
    split_ifs
    · exact hx
    · cases e.sample with
      | none => exact ⟨h1, h2, trivial⟩
      | some st => exact ⟨h1, h2, rfl⟩
  | sampled st =>
    simp only [step]
    split_ifs
    · exact hx
    · exact ⟨h1, h2, h3, rfl⟩
  | stamped st =>
    simp only [step]
    split_ifs
    · exact hx
    · split
      · exact ⟨h1, h2, h3⟩
      · exact ⟨h1, h2, trivial⟩
  | displayed st =>
    simp only [step]
    split_ifs
    · exact hx
    · exact ⟨h1, h2, h3⟩

theorem run_inv (cfg : Config) (sst : GoStat) (start : Time) (envs : List Env) (s : MainState)
    (h : Inv sst start s) : Inv sst start (run cfg s envs).1 := by
  induction envs generalizing s with
  | nil => exact h
  | cons e es ih => exact ih _ (step_inv cfg sst start s e h)

theorem init_inv (sst : GoStat) (start : Time) : Inv sst start (MainState.init sst start) :=
  ⟨rfl, rfl, rfl, rfl⟩

theorem exitWithTotal_out (cfg : Config) (s : MainState)
    (hexit : (exitWithTotal cfg s).1.pc = .exited) :
    (cfg.showTotal = false → (exitWithTotal cfg s).2 = []) ∧
      (cfg.showTotal = true → ∃ record,
        display cfg s.sst s.pst s.start s.lastSample = some record ∧
        (exitWithTotal cfg s).2 =
          Call.printf "\n\n// measured average over %s\n" [.dur (s.lastSample.Sub s.start)]
            :: record) := by
  unfold exitWithTotal total at *
  cases hT : cfg.showTotal with
  | false => simp
  | true =>
    cases hd : display cfg s.sst s.pst s.start s.lastSample with
    | none => simp [hT, hd] at hexit
    | some record => simp

/-- C9 fails on the code: a signal delivered after `lastSample = time.Now()` and before
`pst = st` makes `total` print the record of the older snapshot still held by `pst`,
together with the new sample time, and not the record of the snapshot taken most
recently. -/
theorem signal_before_assignment_is_stale :
    raceState.pc = .stamped (memSnap 2048) ∧
      raceState.taken.head? = some (memSnap 2048) ∧
      raceState.stamps.head? = some ⟨1000000000⟩ ∧
      (step memWithTotal raceState (interrupt ⟨1000000000⟩)).1.pc = .exited ∧
      some (step memWithTotal raceState (interrupt ⟨1000000000⟩)).2 =
        total memWithTotal (memSnap 1024) (memSnap 1024) ⟨0⟩ ⟨1000000000⟩ ∧
      some (step memWithTotal raceState (interrupt ⟨1000000000⟩)).2 ≠
        total memWithTotal (memSnap 1024) (memSnap 2048) ⟨0⟩ ⟨1000000000⟩ := by
  have hstale : some (step memWithTotal raceState (interrupt ⟨1000000000⟩)).2 =
      total memWithTotal (memSnap 1024) (memSnap 1024) ⟨0⟩ ⟨1000000000⟩ := rfl
  refine ⟨by decide, by decide, by decide, by decide, hstale, ?_⟩
  rw [hstale]
  intro h
  have hf := congrArg (Option.map floats) h
  simp [total, display, flagged, displayMem, displayTime, memWithTotal, memSnap, floats,
    Call.floats, float64, FVal.div] at hf
  norm_num at hf

/-- The final record on the paths where the shared variables are in step: when the loop
ends because the duration has expired (which is tested at the loop head only), or because
a signal is delivered while the loop is at its head or between the head and the completion
of the next snapshot, `total` prints nothing if the total flag is off; if it is on it
prints the header with the span from the start to the last sample time, followed by
exactly the record of `display` for the very first snapshot, the snapshot taken most
recently, the start time and the last sample time. -/
theorem total_on_exit (cfg : Config) (sst : GoStat) (start : Time) (envs : List Env) (e : Env)
    (hlive : (run cfg (MainState.init sst start) envs).1.pc ≠ .exited)
    (hwhen : e.signal = true →
      (run cfg (MainState.init sst start) envs).1.pc = .loopHead ∨
      (run cfg (MainState.init sst start) envs).1.pc = .sleeping)
    (hexit : (step cfg (run cfg (MainState.init sst start) envs).1 e).1.pc = .exited) :
    ∃ cur last,
      (run cfg (MainState.init sst start) envs).1.taken.head? = some cur ∧
      (run cfg (MainState.init sst start) envs).1.stamps.head? = some last ∧
      (e.signal = false →
        (run cfg (MainState.init sst start) envs).1.pc = .loopHead ∧
        cfg.duration.ns < (e.now.Sub start).ns) ∧
      (cfg.showTotal = false →
        (step cfg (run cfg (MainState.init sst start) envs).1 e).2 = []) ∧
      (cfg.showTotal = true → ∃ record,
        display cfg sst cur start last = some record ∧
        (step cfg (run cfg (MainState.init sst start) envs).1 e).2 =
          Call.printf "\n\n// measured average over %s\n" [.dur (last.Sub start)] :: record) := by
  have inv := run_inv cfg sst start envs _ (init_inv sst start)
  generalize (run cfg (MainState.init sst start) envs).1 = s at *
  obtain ⟨s0, p, t0, l, pc, tk, sp⟩ := s
  obtain ⟨h1, h2, h3⟩ := inv
  simp only at h1 h2 h3 hlive hwhen
  subst h1 h2
  cases pc with
  | exited => exact absurd rfl hlive
  | panicked => simp [step] at hexit
  | loopHead =>
    obtain ⟨ht, hs⟩ := h3
    simp only [step] at hexit ⊢
    by_cases hsig : e.signal = true
    · simp only [hsig, if_true] at hexit ⊢
      have ho := exitWithTotal_out cfg _ hexit
      exact ⟨p, l, ht, hs, by simp, ho.1, ho.2⟩
    · by_cases hexp : cfg.duration.ns < (e.now.Sub t0).ns
      · simp only [hsig, hexp, if_true] at hexit ⊢
        have ho := exitWithTotal_out cfg _ hexit
        exact ⟨p, l, ht, hs, fun _ => ⟨trivial, by first | exact hexp | trivial⟩, ho.1, ho.2⟩
      · simp [hsig, hexp] at hexit
  | sleeping =>
    obtain ⟨ht, hs⟩ := h3
    simp only [step] at hexit ⊢
    by_cases hsig : e.signal = true
    · simp only [hsig, if_true] at hexit ⊢
      have ho := exitWithTotal_out cfg _ hexit
      exact ⟨p, l, ht, hs, by simp, ho.1, ho.2⟩
    · cases hsm : e.sample <;> simp [hsig, hsm] at hexit
  | sampled st =>
    by_cases hsig : e.signal = true
    · simpa using hwhen hsig
    · simp [step, hsig] at hexit
  | stamped st =>
    by_cases hsig : e.signal = true
    · simpa using hwhen hsig
    · simp only [step] at hexit
      cases hd : display cfg p st t0 l <;> simp [hsig, hd] at hexit
  | displayed st =>
    by_cases hsig : e.signal = true
    · simpa using hwhen hsig
    · simp [step, hsig] at hexit

theorem total_on_exit_witness :
    (run memWithTotal (MainState.init (memSnap 1024) ⟨0⟩) onePoll).1.pc ≠ .exited ∧
      (step memWithTotal (run memWithTotal (MainState.init (memSnap 1024) ⟨0⟩) onePoll).1
        (quiet ⟨11000000000⟩ none)).1.pc = .exited ∧
      ∃ cur last,
        (run memWithTotal (MainState.init (memSnap 1024) ⟨0⟩) onePoll).1.taken.head? =
          some cur ∧
        (run memWithTotal (MainState.init (memSnap 1024) ⟨0⟩) onePoll).1.stamps.head? =
          some last ∧
        ((quiet ⟨11000000000⟩ none).signal = false →
          (run memWithTotal (MainState.init (memSnap 1024) ⟨0⟩) onePoll).1.pc = .loopHead ∧
          memWithTotal.duration.ns < ((quiet ⟨11000000000⟩ none).now.Sub ⟨0⟩).ns) ∧
        (memWithTotal.showTotal = false →
          (step memWithTotal (run memWithTotal (MainState.init (memSnap 1024) ⟨0⟩) onePoll).1
            (quiet ⟨11000000000⟩ none)).2 = []) ∧
        (memWithTotal.showTotal = true → ∃ record,
          display memWithTotal (memSnap 1024) cur ⟨0⟩ last = some record ∧
          (step memWithTotal (run memWithTotal (MainState.init (memSnap 1024) ⟨0⟩) onePoll).1
            (quiet ⟨11000000000⟩ none)).2 =
            Call.printf "\n\n// measured average over %s\n" [.dur (last.Sub ⟨0⟩)] :: record) :=
  ⟨by decide, by decide,
   total_on_exit memWithTotal (memSnap 1024) ⟨0⟩ onePoll (quiet ⟨11000000000⟩ none)
     (by decide) (by decide) (by decide)⟩

/-- C2 fails on the code: in the second record of a run with one-second polls the disk
util is the `IoTime` delta of the last second over the two seconds since the program
started, 25, where the span between the two snapshots gives 50. -/
theorem second_tick_util_over_run_time :
    secondTick.pc = .stamped (diskSnap 1000) ∧
      secondTick.pst = diskSnap 500 ∧
      secondTick.stamps = [⟨2000000000⟩, ⟨1000000000⟩, ⟨0⟩] ∧
      some (step diskOnly secondTick (quiet ⟨2000000000⟩ none)).2 =
        display diskOnly (diskSnap 500) (diskSnap 1000) ⟨0⟩ ⟨2000000000⟩ ∧
      floats (step diskOnly secondTick (quiet ⟨2000000000⟩ none)).2 =
        [.fin 25, .fin 0, .fin 0] ∧
      ((float64 (u64sub 1000 500)).div
        (float64 ((⟨2000000000⟩ : Time).Sub ⟨1000000000⟩).Milliseconds)).mul (.fin 100) =
        .fin 50 := by
  have hrec : some (step diskOnly secondTick (quiet ⟨2000000000⟩ none)).2 =
      display diskOnly (diskSnap 500) (diskSnap 1000) ⟨0⟩ ⟨2000000000⟩ := rfl
  have hms2 : ((⟨2000000000⟩ : Time).Sub ⟨0⟩).Milliseconds = 2000 := by decide
  have hms1 : ((⟨2000000000⟩ : Time).Sub ⟨1000000000⟩).Milliseconds = 1000 := by decide
  have hsub : u64sub 1000 500 = 500 := by decide
  have hsub0 : u64sub 0 0 = 0 := by decide
  refine ⟨by decide, by decide, by decide, hrec, ?_, ?_⟩
  · have hf := congrArg (Option.map floats) hrec
    have hd : (display diskOnly (diskSnap 500) (diskSnap 1000) ⟨0⟩ ⟨2000000000⟩).map floats =
        some [.fin 25, .fin 0, .fin 0] := by
      simp [display, flagged, diskOnly, displayDisk, displayDiskLoop, displayTime, floats,
        Call.floats, displayN, diskSnap, DiskMap.index, List.lookup, hms2, hsub, hsub0,
        float64, FVal.div, FVal.mul]
      norm_num
    rw [hd] at hf
    simpa using hf
  · rw [hms1, hsub]
    norm_num [float64, FVal.div, FVal.mul]

end Gstat
